import Mathlib

/-!
Verification development for the Airlock Gateway REST API library
(`airlock_gateway_rest_api_lib.py`, `denyrules.py`) and its example
scripts (`utils.py`, `add_custom_dr.py`, `ip_list_relationships.py`).

The Python code is shallowly embedded: each relevant function is
translated into a pure Lean function over an explicit environment that
models the responses returned by the gateway (status codes, response
texts, and the parsed JSON values the code actually reads).  Side
effects that the claims talk about (which HTTP requests are issued, in
which order) are modelled by returning an explicit trace of steps.
Python exceptions are modelled with `Except`.
-/

/- ## Request helpers
   Embedding of `_res_expect_handle`, `req`, `req_raw` and the
   `get`/`post`/`patch`/`put`/`delete` wrappers
   (airlock_gateway_rest_api_lib.py, lines 94-198). -/

/-- Model of an HTTP response as the library reads it: only
`res.status_code` and `res.text` are inspected by the request helpers. -/
structure Response where
  status_code : Nat
  text : String
deriving DecidableEq, Repr

/-- Model of the `AirlockGatewayRestError` exception raised by
`_res_expect_handle` (lines 42-51): it carries the unexpected status
code and the response text used to build the message. -/
inductive RestError where
  | airlockGatewayRestError (status_code : Nat) (message : String)
deriving DecidableEq, Repr

/-- The `exp_code` argument of the request helpers: Python allows
`None` (the default), a single `int`, or a `list` of ints. -/
inductive ExpCode where
  | noCode
  | single (n : Nat)
  | codes (l : List Nat)
deriving DecidableEq, Repr

/-- Python truthiness of the `exp_code` argument, as tested by
`if exp_code:` in `_res_expect_handle`: `None` is falsy, an `int` is
falsy exactly when it is `0`, a `list` is falsy exactly when it is
empty. -/
def ExpCode.truthy : ExpCode → Bool
  | .noCode => false
  | .single n => n != 0
  | .codes l => !l.isEmpty

/-- The normalisation `if not isinstance(exp_code, list): exp_code =
[exp_code]` performed by `_res_expect_handle`: the set of expected
status codes as a list. -/
def ExpCode.asList : ExpCode → List Nat
  | .noCode => []
  | .single n => [n]
  | .codes l => l

/-- Embedding of `_res_expect_handle(res, exp_code)` (lines 94-105):
if `exp_code` is truthy and the status code is not in the (normalised)
list, raise `AirlockGatewayRestError(res.status_code, res.text)`. -/
def res_expect_handle (res : Response) (exp_code : ExpCode) : Except RestError Unit :=
  if exp_code.truthy then
    if exp_code.asList.contains res.status_code then
      Except.ok ()
    else
      Except.error (RestError.airlockGatewayRestError res.status_code res.text)
  else
    Except.ok ()

/-- An abstract gateway: maps (method, path) to the response the
`requests` session would return.  Request bodies do not influence the
part of the behaviour the claims are about, so they are not modelled. -/
def Gateway : Type := String → String → Response

/-- Embedding of `req(gw_session, method, path, body_dict, exp_code)`
(lines 129-145): perform the request, run `_res_expect_handle`, and
return the response object unchanged if no exception was raised. -/
def req (gw : Gateway) (method : String) (path : String)
    (exp_code : ExpCode) : Except RestError Response :=
  let res := gw method path
  match res_expect_handle res exp_code with
  | Except.ok _ => Except.ok res
  | Except.error e => Except.error e

/-- Embedding of `req_raw(gw_session, method, path, ctype, data,
exp_code)` (lines 109-126): same status handling as `req`; the content
type and raw payload only affect the request, not the checking. -/
def req_raw (gw : Gateway) (method : String) (path : String)
    (exp_code : ExpCode) : Except RestError Response :=
  let res := gw method path
  match res_expect_handle res exp_code with
  | Except.ok _ => Except.ok res
  | Except.error e => Except.error e

/-- Embedding of `post` (lines 148-156). -/
def post (gw : Gateway) (path : String) (exp_code : ExpCode) :
    Except RestError Response :=
  req gw "POST" path exp_code

/-- Embedding of `patch` (lines 159-167). -/
def patch (gw : Gateway) (path : String) (exp_code : ExpCode) :
    Except RestError Response :=
  req gw "PATCH" path exp_code

/-- Embedding of `put` (lines 170-178). -/
def put (gw : Gateway) (path : String) (exp_code : ExpCode) :
    Except RestError Response :=
  req gw "PUT" path exp_code

/-- Embedding of `delete` (lines 181-188). -/
def delete (gw : Gateway) (path : String) (exp_code : ExpCode) :
    Except RestError Response :=
  req gw "DELETE" path exp_code

/-- Embedding of `get` (lines 191-198). -/
def get (gw : Gateway) (path : String) (exp_code : ExpCode) :
    Except RestError Response :=
  req gw "GET" path exp_code

/-- Claim C1, counterexample: supplying the expected status code set as
the single integer `0` gives a non-empty one-element set `[0]`, and the
response status `200` is not in it, yet `req` raises nothing and
returns the response: `if exp_code:` treats the integer `0` as falsy,
so the check is skipped entirely. -/
theorem C1_counterexample :
    (ExpCode.single 0).asList ≠ [] ∧
    (ExpCode.single 0).asList.contains 200 = false ∧
    req (fun _ _ => ⟨200, "ok"⟩) "GET" "/configuration/mappings"
      (ExpCode.single 0) = Except.ok ⟨200, "ok"⟩ := by
  refine ⟨by decide, by decide, rfl⟩

/-- Claim C1 (amended): for every call to `req`, `req_raw` or one of the
`get`/`post`/`patch`/`put`/`delete` wrappers in which the supplied
expected status code set is truthy in Python — a non-empty list, or a
single non-zero integer — the call raises `AirlockGatewayRestError`
if and only if the response status code is not in that set, and when no
exception is raised the response object is returned unchanged.  (The
only excluded supplied value is the single integer `0`, which Python
truthiness treats as if no expectation had been given.) -/
theorem C1_request_helpers_expected_status (gw : Gateway)
    (method path : String) (exp_code : ExpCode)
    (h : exp_code.truthy = true) :
    (req gw method path exp_code =
      (if exp_code.asList.contains (gw method path).status_code then
        Except.ok (gw method path)
      else
        Except.error (RestError.airlockGatewayRestError
          (gw method path).status_code (gw method path).text))) ∧
    (req_raw gw method path exp_code = req gw method path exp_code) ∧
    (get gw path exp_code = req gw "GET" path exp_code) ∧
    (post gw path exp_code = req gw "POST" path exp_code) ∧
    (patch gw path exp_code = req gw "PATCH" path exp_code) ∧
    (put gw path exp_code = req gw "PUT" path exp_code) ∧
    (delete gw path exp_code = req gw "DELETE" path exp_code) := by
  refine ⟨?_, rfl, rfl, rfl, rfl, rfl, rfl⟩
  unfold req res_expect_handle
  rw [h]
  by_cases hc : (gw method path).status_code ∈ exp_code.asList
  · simp [hc]
  · simp [hc]

/-- Witness for C1: at the concrete expected set `[200, 404]` and a
response with status `500`, the call raises the typed error. -/
theorem C1_witness :
    (ExpCode.codes [200, 404]).truthy = true ∧
    req (fun _ _ => ⟨500, "boom"⟩) "GET" "/p" (ExpCode.codes [200, 404]) =
      Except.error (RestError.airlockGatewayRestError 500 "boom") := by
  refine ⟨by decide, ?_⟩
  have h := (C1_request_helpers_expected_status
    (fun _ _ => ⟨500, "boom"⟩) "GET" "/p" (ExpCode.codes [200, 404])
    (by decide)).1
  simpa using h

/- ## Configuration lifecycle: `validate`, `activate`, `save_config`
   (airlock_gateway_rest_api_lib.py, lines 274-326). -/

/-- One element of `res.json()["data"]` returned by
`GET /configuration/validator-messages?filter=meta.severity==ERROR`:
the code only reads `e["attributes"]["detail"]`. -/
structure ValidatorMsg where
  detail : String
deriving DecidableEq, Repr

/-- Environment for the `validate`/`activate` flow: what the gateway
returns to the validator-messages GET (status, text, and the parsed
`data` list of ERROR-severity messages) and to the activation POST. -/
structure LifecycleEnv where
  validateStatus : Nat
  validateText : String
  validatorErrors : List ValidatorMsg
  activateStatus : Nat
  activateText : String

/-- Embedding of `validate(gw_session)` (lines 274-287): GET the
ERROR-severity validator messages expecting status 200 (raising
otherwise); if the `data` list is non-empty return
`(False, [e["attributes"]["detail"] for e in data])`, else
`(True, [])`. -/
def validate (env : LifecycleEnv) : Except RestError (Bool × List String) :=
  if env.validateStatus = 200 then
    if env.validatorErrors.length > 0 then
      Except.ok (false, env.validatorErrors.map ValidatorMsg.detail)
    else
      Except.ok (true, [])
  else
    Except.error (RestError.airlockGatewayRestError env.validateStatus env.validateText)

/-- Requests issued by the `activate` flow. -/
inductive ActStep where
  | getValidatorMessages
  | postActivate
deriving DecidableEq, Repr

/-- Embedding of `activate(gw_session, comment)` (lines 290-307)
together with the trace of requests it issues: build the optional
comment payload (no request), run `validate`; if it reports the
configuration invalid return `False`; otherwise POST
`/configuration/configurations/activate` expecting status 200 (raising
otherwise) and return `True`. -/
def activate (env : LifecycleEnv) : List ActStep × Except RestError Bool :=
  match validate env with
  | Except.error e => ([ActStep.getValidatorMessages], Except.error e)
  | Except.ok (valid, _msgs) =>
    if !valid then
      ([ActStep.getValidatorMessages], Except.ok false)
    else if env.activateStatus = 200 then
      ([ActStep.getValidatorMessages, ActStep.postActivate], Except.ok true)
    else
      ([ActStep.getValidatorMessages, ActStep.postActivate],
       Except.error (RestError.airlockGatewayRestError env.activateStatus env.activateText))

/-- Claim C6: when the validator GET succeeds (status 200), `validate`
returns `(True, [])` if and only if the gateway's list of
ERROR-severity validator messages is empty; otherwise it returns
`(False, msgs)` where `msgs` lists the `detail` attribute of each
returned message in response order. -/
theorem C6_validate_iff_no_errors (env : LifecycleEnv)
    (h : env.validateStatus = 200) :
    (validate env = Except.ok (true, []) ↔ env.validatorErrors = []) ∧
    (env.validatorErrors ≠ [] →
      validate env =
        Except.ok (false, env.validatorErrors.map ValidatorMsg.detail)) := by
  constructor
  · constructor
    · intro hv
      by_contra hne
      have hlen : env.validatorErrors.length > 0 := by
        cases henv : env.validatorErrors with
        | nil => exact absurd henv hne
        | cons a l => simp [henv]
      simp [validate, h, hlen] at hv
    · intro he
      simp [validate, h, he]
  · intro hne
    have hlen : env.validatorErrors.length > 0 := by
      cases henv : env.validatorErrors with
      | nil => exact absurd henv hne
      | cons a l => simp [henv]
    simp [validate, h, hlen]

/-- Witness for C6: a gateway reporting one ERROR message with detail
`"bad backend"` makes `validate` return `(False, ["bad backend"])`. -/
theorem C6_witness :
    validate ⟨200, "", [⟨"bad backend"⟩], 200, ""⟩ =
      Except.ok (false, ["bad backend"]) :=
  (C6_validate_iff_no_errors ⟨200, "", [⟨"bad backend"⟩], 200, ""⟩ rfl).2
    (by decide)

/-- Claim C2: validation runs first in `activate`; when the validator
GET succeeds, if the validator reports at least one ERROR-severity
message then `activate` returns `False` without issuing the activation
POST, and if it reports none then `activate` issues
`POST /configuration/configurations/activate` (expecting status 200)
and, when that POST returns 200, returns `True`. -/
theorem C2_activate_validates_first (env : LifecycleEnv)
    (h : env.validateStatus = 200) :
    (env.validatorErrors ≠ [] →
      activate env = ([ActStep.getValidatorMessages], Except.ok false)) ∧
    (env.validatorErrors = [] →
      (activate env).1 = [ActStep.getValidatorMessages, ActStep.postActivate] ∧
      (env.activateStatus = 200 → (activate env).2 = Except.ok true)) := by
  constructor
  · intro hne
    have hlen : env.validatorErrors.length > 0 := by
      cases henv : env.validatorErrors with
      | nil => exact absurd henv hne
      | cons a l => simp [henv]
    simp [activate, validate, h, hlen]
  · intro he
    constructor
    · by_cases ha : env.activateStatus = 200 <;>
        simp [activate, validate, h, he, ha]
    · intro ha
      simp [activate, validate, h, he, ha]

/-- Witness for C2: with one validator ERROR message the activation
POST is not issued and `activate` returns `False`. -/
theorem C2_witness :
    activate ⟨200, "", [⟨"invalid"⟩], 200, ""⟩ =
      ([ActStep.getValidatorMessages], Except.ok false) :=
  (C2_activate_validates_first ⟨200, "", [⟨"invalid"⟩], 200, ""⟩ rfl).1
    (by decide)

/-- Environment for the `save_config` flow: the status and text
returned by `POST /configuration/configurations/save`, and the
`res.json()['data']['id']` field of its body on success. -/
structure SaveEnv where
  saveStatus : Nat
  saveText : String
  savedId : String

/-- Embedding of `save_config(gw_session, comment)` (lines 310-326):
POST the save endpoint expecting `[200, 400]` (raising on any other
status); on 400 return `None`, otherwise return the ID of the newly
saved configuration from the response body. -/
def save_config (env : SaveEnv) : Except RestError (Option String) :=
  if ([200, 400] : List Nat).contains env.saveStatus then
    if env.saveStatus = 400 then
      Except.ok none
    else
      Except.ok (some env.savedId)
  else
    Except.error (RestError.airlockGatewayRestError env.saveStatus env.saveText)

/-- Claim C5: `save_config` accepts exactly the statuses 200 and 400:
on 400 it returns `None`, on 200 it returns the ID of the newly saved
configuration from the response body, and on every other status it
raises `AirlockGatewayRestError`. -/
theorem C5_save_config_statuses (env : SaveEnv) :
    (env.saveStatus = 400 → save_config env = Except.ok none) ∧
    (env.saveStatus = 200 → save_config env = Except.ok (some env.savedId)) ∧
    (env.saveStatus ≠ 200 → env.saveStatus ≠ 400 →
      save_config env =
        Except.error (RestError.airlockGatewayRestError env.saveStatus env.saveText)) := by
  refine ⟨?_, ?_, ?_⟩
  · intro h; simp [save_config, h]
  · intro h; simp [save_config, h]
  · intro h200 h400; simp [save_config, h200, h400]

/-- Witness for C5: a save POST answered with status 500 raises the
typed error. -/
theorem C5_witness :
    save_config ⟨500, "oops", "cfg-9"⟩ =
      Except.error (RestError.airlockGatewayRestError 500 "oops") :=
  (C5_save_config_statuses ⟨500, "oops", "cfg-9"⟩).2.2 (by decide) (by decide)

/- ## `GatewaySession.__init__`
   (airlock_gateway_rest_api_lib.py, lines 54-68). -/

/-- The `port` argument of `GatewaySession.__init__`: Python allows
`None` (the default) or an `int`. -/
inductive PyPort where
  | noPort
  | val (n : Int)
deriving DecidableEq, Repr

/-- Python truthiness of the `port` argument, as tested by
`port if port else 443`: `None` is falsy, an `int` is falsy exactly
when it is `0`. -/
def PyPort.truthy : PyPort → Bool
  | .noPort => false
  | .val n => n != 0

/-- Python `str(port)` as interpolated by `f"{host_name}:{port}"`. -/
def PyPort.str : PyPort → String
  | .noPort => "None"
  | .val n => toString n

/-- The fields of a `GatewaySession` set by `__init__` (the `requests`
session object `ses` is an opaque HTTP client and is not modelled). -/
structure GatewaySession where
  port : Int
  host : String
  host_name : String
deriving DecidableEq, Repr

/-- Embedding of `GatewaySession.__init__(self, host_name, ses, port)`
(lines 60-64): `self.port = port if port else 443`;
`self.host = f"{host_name}:{port}" if port != 443 else host_name`;
`self.host_name = host_name`. -/
def GatewaySession.init (host_name : String) (port : PyPort) : GatewaySession :=
  { port := if port.truthy then
        (match port with
         | PyPort.val n => n
         | PyPort.noPort => 443)
      else 443
    host := if port ≠ PyPort.val 443 then host_name ++ ":" ++ port.str
      else host_name
    host_name := host_name }

/-- Claim C10: the stored host string equals `host_name` if and only if
the port argument is the integer 443; otherwise it is
`f"{host_name}:{port}"` formatted from the original argument.  In
particular, constructing with `port = None` stores port 443 but host
`"host_name:None"`, so the stored port and host disagree. -/
theorem C10_session_host_port (host_name : String) (port : PyPort) :
    ((GatewaySession.init host_name port).host = host_name ↔
      port = PyPort.val 443) ∧
    (port ≠ PyPort.val 443 →
      (GatewaySession.init host_name port).host =
        host_name ++ ":" ++ port.str) ∧
    ((GatewaySession.init host_name PyPort.noPort).port = 443 ∧
      (GatewaySession.init host_name PyPort.noPort).host =
        host_name ++ ":None" ∧
      (GatewaySession.init host_name PyPort.noPort).host ≠ host_name) := by
  have hne : ∀ s : String, host_name ++ ":" ++ s ≠ host_name := by
    intro s h
    have hlen := congrArg String.length h
    simp [String.length_append] at hlen
    have hone : (":" : String).length = 1 := rfl
    omega
  have hassoc : host_name ++ ":" ++ "None" = host_name ++ ":None" := by
    rw [String.append_assoc]
    rfl
  have hNone : (GatewaySession.init host_name PyPort.noPort).host =
      host_name ++ ":None" := hassoc
  refine ⟨⟨?_, ?_⟩, ?_, rfl, hNone, fun h => hne "None" h⟩
  · intro h
    by_contra hp
    rw [show (GatewaySession.init host_name port).host =
        host_name ++ ":" ++ port.str by simp [GatewaySession.init, hp]] at h
    exact hne port.str h
  · intro h
    simp [GatewaySession.init, h]
  · intro h
    simp [GatewaySession.init, h]

/-- Witness for C10: with host name `"gw"` and port `8443` the stored
host is `"gw:8443"`. -/
theorem C10_witness :
    (GatewaySession.init "gw" (PyPort.val 8443)).host = "gw:8443" :=
  (C10_session_host_port "gw" (PyPort.val 8443)).2.1 (by decide)

/- ## Activate-or-save flows
   `activate_or_save` and `save_config` in examples/utils.py
   (lines 67-101), and the tail of `main` in
   examples/ip_list_relationships.py (lines 233-246). -/

/-- Observable steps of the `activate_or_save` flow in utils.py. -/
inductive AosStep where
  | promptActivate
  | callActivate
  | enterSaveConfig (assume_yes : Bool)
  | promptSave
  | callAlSaveConfig
  | exitWithError
deriving DecidableEq, Repr

/-- Environment for the activate-or-save flows: the user's answers to
the two confirmation prompts and the results of the library calls
`al.activate` and `al.save_config`. -/
structure AosEnv where
  activateAnswerYes : Bool
  activateResult : Bool
  saveAnswerYes : Bool
  alSaveResult : Option String

/-- Embedding of `save_config(session, comment, assume_yes)` in
utils.py (lines 67-78) as the trace of its steps: unless `assume_yes`,
prompt and return on any answer other than `y`; then call
`al.save_config`, exiting with an error if it returned `None`. -/
def utilsSaveConfig (env : AosEnv) (assume_yes : Bool) : List AosStep :=
  AosStep.enterSaveConfig assume_yes ::
  (if !assume_yes then
    AosStep.promptSave ::
      (if !env.saveAnswerYes then
        []
      else
        AosStep.callAlSaveConfig ::
          (if env.alSaveResult = none then [AosStep.exitWithError] else []))
  else
    AosStep.callAlSaveConfig ::
      (if env.alSaveResult = none then [AosStep.exitWithError] else []))

/-- Embedding of `activate_or_save(session, comment, assume_yes,
activate)` in utils.py (lines 81-101) as the trace of its steps: when
activation is requested, prompt unless `assume_yes` and return if not
confirmed; call `al.activate`; on `True` return, on `False` fall back
to `save_config(session, comment, False)`.  When activation is not
requested, call `save_config(session, comment, assume_yes)`. -/
def activate_or_save (env : AosEnv) (assume_yes activateFlag : Bool) :
    List AosStep :=
  if activateFlag then
    (if !assume_yes then [AosStep.promptActivate] else []) ++
    (if !assume_yes && !env.activateAnswerYes then
      []
    else
      AosStep.callActivate ::
        (if env.activateResult then [] else utilsSaveConfig env false))
  else
    utilsSaveConfig env assume_yes

/-- Observable steps of the `main` tail of ip_list_relationships.py. -/
inductive IpStep where
  | promptFinal
  | exitWithError
  | callActivate
  | callAlSaveConfig
deriving DecidableEq, Repr

/-- Embedding of lines 233-246 of examples/ip_list_relationships.py as
the trace of its steps: unless `assumeyes`, prompt and exit via
`terminate_session_with_error` on any answer other than `y`; then, if
`--activate` was given, call `al.activate` and on `False` call
`al.save_config` as fallback; otherwise call `al.save_config`. -/
def ipListFinish (assumeyes activateFlag answerYes activateResult : Bool) :
    List IpStep :=
  (if !assumeyes then [IpStep.promptFinal] else []) ++
  (if !assumeyes && !answerYes then
    [IpStep.exitWithError]
  else if activateFlag then
    IpStep.callActivate ::
      (if activateResult then [] else [IpStep.callAlSaveConfig])
  else
    [IpStep.callAlSaveConfig])

/-- Tests whether a step is an invocation of the `save_config` helper
of utils.py (with either value of its `assume_yes` argument). -/
def AosStep.isSaveConfigCall : AosStep → Bool
  | .enterSaveConfig _ => true
  | _ => false

/-- Tests whether a step is a call to `al.activate`. -/
def AosStep.isActivateCall : AosStep → Bool
  | .callActivate => true
  | _ => false

/-- Claim C3: in every run of the activate-or-save flows in which
activation is requested and confirmed (the `activate` flag is set and
either `assume_yes` holds or the user answered `y`): if `al.activate`
returns `True`, `save_config` is not called afterwards; if it returns
`False`, `save_config` is called exactly once as a fallback; and
`al.activate` is called exactly once, so no second activation attempt
is ever made.  This holds both for `activate_or_save` in utils.py
(where the fallback is the prompting `save_config` helper of utils.py)
and for the `main` tail of ip_list_relationships.py (where the
fallback is `al.save_config` itself). -/
theorem C3_activate_or_save_fallback (env : AosEnv)
    (assume_yes answerYes activateResult : Bool)
    (hconf : assume_yes = true ∨ env.activateAnswerYes = true)
    (hconf2 : assume_yes = true ∨ answerYes = true) :
    ((activate_or_save env assume_yes true).countP
        (fun s => AosStep.isActivateCall s) = 1) ∧
    (env.activateResult = true →
      (activate_or_save env assume_yes true).countP
        (fun s => AosStep.isSaveConfigCall s) = 0 ∧
      AosStep.callAlSaveConfig ∉ activate_or_save env assume_yes true) ∧
    (env.activateResult = false →
      (activate_or_save env assume_yes true).countP
        (fun s => AosStep.isSaveConfigCall s) = 1) ∧
    ((ipListFinish assume_yes true answerYes activateResult).count
        IpStep.callActivate = 1) ∧
    (activateResult = true →
      IpStep.callAlSaveConfig ∉ ipListFinish assume_yes true answerYes activateResult) ∧
    (activateResult = false →
      (ipListFinish assume_yes true answerYes activateResult).count
        IpStep.callAlSaveConfig = 1) := by
  cases env with
  | mk aAns aRes sAns sRes =>
    cases assume_yes <;> cases answerYes <;> cases aAns <;> cases aRes <;>
      cases sAns <;> cases sRes <;>
      simp_all [activate_or_save, utilsSaveConfig, ipListFinish,
        AosStep.isActivateCall, AosStep.isSaveConfigCall,
        List.countP_cons, List.count_cons] <;>
      cases activateResult <;> simp_all

/-- Witness for C3: with `assume_yes` set, a failing activation and a
user who would confirm saving, the utils.py flow calls `al.activate`
exactly once. -/
theorem C3_witness :
    (activate_or_save ⟨true, false, true, some "cfg-1"⟩ true true).countP
        (fun s => AosStep.isActivateCall s) = 1 :=
  (C3_activate_or_save_fallback ⟨true, false, true, some "cfg-1"⟩
    true true false (Or.inl rfl) (Or.inl rfl)).1

/- ## Add-custom-deny-rule flow
   `main` of examples/add_custom_dr.py, lines 157-207. -/

/-- One element of the `data` list returned by
`GET /configuration/custom-deny-rule-groups`: the flow reads
`group.get("id")` and `group.get("attributes").get("name")`. -/
structure DrGroup where
  id : String
  name : String
deriving DecidableEq, Repr

/-- Requests issued by the add-custom-deny-rule flow. -/
inductive DrStep where
  | postCreateRule
  | getGroups
  | postCreateGroup
  | patchConnect (groupId : String) (ruleId : String)
deriving DecidableEq, Repr

/-- Environment for the add-custom-deny-rule flow: responses to the
rule-creation POST, the group listing GET, the group-creation POST and
the relationship PATCH. -/
structure AddDrEnv where
  createRuleStatus : Nat
  createRuleText : String
  newRuleId : String
  getGroupsStatus : Nat
  getGroupsText : String
  groups : List DrGroup
  createGroupStatus : Nat
  createGroupText : String
  newGroupId : String
  patchStatus : Nat
  patchText : String

/-- The loop of lines 169-172: the first group in `existing_groups`
whose `attributes.name` equals the requested group name, if any. -/
def findGroupByName (groups : List DrGroup) (groupName : String) :
    Option DrGroup :=
  groups.find? (fun g => g.name == groupName)

/-- Embedding of lines 157-207 of examples/add_custom_dr.py as a trace
of requests together with the flow's outcome: POST the new custom deny
rule (expecting 201, raising otherwise), GET the custom deny rule
groups (expecting 200), take the first group whose name matches or
POST a new group (expecting 201), and PATCH the new rule's ID onto the
found or created group's `relationships/custom-deny-rules` (expecting
204 or 404). -/
def addCustomDrFlow (env : AddDrEnv) (groupName : String) :
    List DrStep × Except RestError Unit :=
  if env.createRuleStatus ≠ 201 then
    ([DrStep.postCreateRule],
     Except.error (RestError.airlockGatewayRestError env.createRuleStatus env.createRuleText))
  else if env.getGroupsStatus ≠ 200 then
    ([DrStep.postCreateRule, DrStep.getGroups],
     Except.error (RestError.airlockGatewayRestError env.getGroupsStatus env.getGroupsText))
  else
    match findGroupByName env.groups groupName with
    | some g =>
      ([DrStep.postCreateRule, DrStep.getGroups,
        DrStep.patchConnect g.id env.newRuleId],
       if env.patchStatus = 204 ∨ env.patchStatus = 404 then
         Except.ok ()
       else
         Except.error (RestError.airlockGatewayRestError env.patchStatus env.patchText))
    | none =>
      if env.createGroupStatus ≠ 201 then
        ([DrStep.postCreateRule, DrStep.getGroups, DrStep.postCreateGroup],
         Except.error (RestError.airlockGatewayRestError env.createGroupStatus env.createGroupText))
      else
        ([DrStep.postCreateRule, DrStep.getGroups, DrStep.postCreateGroup,
          DrStep.patchConnect env.newGroupId env.newRuleId],
         if env.patchStatus = 204 ∨ env.patchStatus = 404 then
           Except.ok ()
         else
           Except.error (RestError.airlockGatewayRestError env.patchStatus env.patchText))

/-- Claim C4: in the add-custom-deny-rule flow (with the preceding
POSTs succeeding), a POST creating a custom deny rule group is issued
if and only if no group returned by
`GET /configuration/custom-deny-rule-groups` has `attributes.name`
equal to the requested group name; in either case the newly created
deny rule is then connected via PATCH on the group's
`relationships/custom-deny-rules` to the ID of the found (first
matching) or newly created group. -/
theorem C4_group_created_iff_absent (env : AddDrEnv) (groupName : String)
    (h1 : env.createRuleStatus = 201) (h2 : env.getGroupsStatus = 200)
    (h3 : env.createGroupStatus = 201) :
    (DrStep.postCreateGroup ∈ (addCustomDrFlow env groupName).1 ↔
      ∀ g ∈ env.groups, g.name ≠ groupName) ∧
    (∀ g, findGroupByName env.groups groupName = some g →
      (addCustomDrFlow env groupName).1 =
        [DrStep.postCreateRule, DrStep.getGroups,
         DrStep.patchConnect g.id env.newRuleId]) ∧
    (findGroupByName env.groups groupName = none →
      (addCustomDrFlow env groupName).1 =
        [DrStep.postCreateRule, DrStep.getGroups, DrStep.postCreateGroup,
         DrStep.patchConnect env.newGroupId env.newRuleId]) := by
  have hnone : findGroupByName env.groups groupName = none ↔
      ∀ g ∈ env.groups, g.name ≠ groupName := by
    unfold findGroupByName
    rw [List.find?_eq_none]
    constructor
    · intro h g hg
      have := h g hg
      simpa using this
    · intro h g hg
      simpa using h g hg
  refine ⟨?_, ?_, ?_⟩
  · cases hf : findGroupByName env.groups groupName with
    | some g =>
      have hf' : env.groups.find? (fun g => g.name == groupName) = some g := hf
      have hmem : g ∈ env.groups := List.mem_of_find?_eq_some hf'
      have hname : g.name = groupName := by
        have := List.find?_some hf'
        simpa using this
      simp [addCustomDrFlow, h1, h2, hf]
      exact ⟨g, hmem, hname⟩
    | none =>
      simp [addCustomDrFlow, h1, h2, h3, hf]
      exact hnone.1 hf
  · intro g hf
    simp [addCustomDrFlow, h1, h2, hf]
  · intro hf
    simp [addCustomDrFlow, h1, h2, h3, hf]

/-- Witness for C4: with one existing group named `"CRUD"` and request
for group `"CRUD"`, no group-creation POST is issued and the PATCH
targets the existing group's ID. -/
theorem C4_witness :
    (addCustomDrFlow
      ⟨201, "", "rule-7", 200, "", [⟨"grp-1", "CRUD"⟩], 201, "", "grp-new",
        204, ""⟩ "CRUD").1 =
      [DrStep.postCreateRule, DrStep.getGroups,
       DrStep.patchConnect "grp-1" "rule-7"] :=
  (C4_group_created_iff_absent
    ⟨201, "", "rule-7", 200, "", [⟨"grp-1", "CRUD"⟩], 201, "", "grp-new",
      204, ""⟩ "CRUD" rfl rfl rfl).2.1 ⟨"grp-1", "CRUD"⟩ (by decide)

/- ## Built-in deny rule group log-only toggle
   `toggle_builtin_deny_rule_group_logonly` in
   src/rest_api_lib/denyrules.py, lines 292-312. -/

/-- One element of `group_obj["attributes"]["denyRules"]`: the code
reads its `shortNames` list. -/
structure DenyRuleBundle where
  shortNames : List String
deriving DecidableEq, Repr

/-- Environment for the toggle flow: whether the PATCH of the group's
`logOnly` attribute on the mapping succeeded
(`update_mapping_deny_rule_group`, status 200 vs 404), the group
object returned by `get_deny_rule_group`, and whether the PATCH of
each individual rule succeeded (`update_mapping_deny_rule` via
`toggle_built_in_deny_rule_logonly`). -/
structure ToggleEnv where
  groupPatchOk : Bool
  denyRules : List DenyRuleBundle
  rulePatchOk : String → Bool

/-- Python `set.add`: insert an element into a set, modelled as a
duplicate-free list that grows only when the element is new. -/
def pySetAdd (s : List String) (x : String) : List String :=
  if s.contains x then s else s ++ [x]

/-- The nested loop of lines 304-307: collect every `shortName`
appearing in the group's `denyRules` bundles into the Python set
`all_shortNames_in_group`. -/
def collectShortNames (bundles : List DenyRuleBundle) : List String :=
  bundles.foldl (fun s b => b.shortNames.foldl pySetAdd s) []

/-- Requests issued by the toggle flow. -/
inductive ToggleStep where
  | patchGroup
  | getGroup
  | patchRule (shortName : String)
deriving DecidableEq, Repr

/-- Embedding of `toggle_builtin_deny_rule_group_logonly` (lines
292-312) with its request trace: PATCH the group's `logOnly` attribute
on the mapping and return `False` immediately if that failed; then GET
the deny rule group, collect the distinct short names of all its
rules, PATCH each of them, and return `True` only if every rule update
succeeded (`res = toggle(...) and res`). -/
def toggle_builtin_deny_rule_group_logonly (env : ToggleEnv) :
    List ToggleStep × Bool :=
  if !env.groupPatchOk then
    ([ToggleStep.patchGroup], false)
  else
    let names := collectShortNames env.denyRules
    ([ToggleStep.patchGroup, ToggleStep.getGroup] ++
       names.map ToggleStep.patchRule,
     names.foldl (fun r n => env.rulePatchOk n && r) true)

/-- Membership in a Python-set list after an insertion. -/
theorem mem_pySetAdd (s : List String) (x y : String) :
    y ∈ pySetAdd s x ↔ y ∈ s ∨ y = x := by
  unfold pySetAdd
  by_cases h : x ∈ s
  · rw [if_pos (by simpa using h)]
    constructor
    · exact Or.inl
    · rintro (hy | rfl)
      · exact hy
      · exact h
  · rw [if_neg (by simpa using h)]
    simp

/-- Insertion into a duplicate-free Python-set list keeps it
duplicate-free. -/
theorem nodup_pySetAdd (s : List String) (x : String) (h : s.Nodup) :
    (pySetAdd s x).Nodup := by
  unfold pySetAdd
  by_cases hc : x ∈ s
  · rw [if_pos (by simpa using hc)]
    exact h
  · rw [if_neg (by simpa using hc)]
    simpa [List.nodup_append] using ⟨h, hc⟩

/-- Membership after folding a list of names into a Python-set list. -/
theorem mem_foldl_pySetAdd (l : List String) (s : List String) (y : String) :
    y ∈ l.foldl pySetAdd s ↔ y ∈ s ∨ y ∈ l := by
  induction l generalizing s with
  | nil => simp
  | cons a l ih =>
    simp only [List.foldl_cons, ih, mem_pySetAdd, List.mem_cons]
    tauto

/-- Folding a list of names into a duplicate-free Python-set list
keeps it duplicate-free. -/
theorem nodup_foldl_pySetAdd (l : List String) (s : List String)
    (h : s.Nodup) : (l.foldl pySetAdd s).Nodup := by
  induction l generalizing s with
  | nil => simpa
  | cons a l ih => exact ih _ (nodup_pySetAdd s a h)

/-- Membership in the collected set of short names: exactly the short
names appearing in some bundle of the group's `denyRules`. -/
theorem mem_collectShortNames (bundles : List DenyRuleBundle) (y : String) :
    y ∈ collectShortNames bundles ↔
      ∃ b ∈ bundles, y ∈ b.shortNames := by
  unfold collectShortNames
  suffices h : ∀ s : List String, y ∈ bundles.foldl
      (fun s b => b.shortNames.foldl pySetAdd s) s ↔
      y ∈ s ∨ ∃ b ∈ bundles, y ∈ b.shortNames by
    simpa using h []
  induction bundles with
  | nil => simp
  | cons b bs ih =>
    intro s
    simp only [List.foldl_cons, ih, mem_foldl_pySetAdd, List.mem_cons]
    constructor
    · rintro (⟨hs | hb⟩ | ⟨b', hb', hy⟩)
      · exact Or.inl hs
      · exact Or.inr ⟨b, Or.inl rfl, hb⟩
      · exact Or.inr ⟨b', Or.inr hb', hy⟩
    · rintro (hs | ⟨b', hb' | hb', hy⟩)
      · exact Or.inl (Or.inl hs)
      · exact Or.inl (Or.inr (hb' ▸ hy))
      · exact Or.inr ⟨b', hb', hy⟩

/-- The collected set of short names is duplicate-free: each distinct
short name appears exactly once. -/
theorem nodup_collectShortNames (bundles : List DenyRuleBundle) :
    (collectShortNames bundles).Nodup := by
  unfold collectShortNames
  suffices h : ∀ s : List String, s.Nodup → (bundles.foldl
      (fun s b => b.shortNames.foldl pySetAdd s) s).Nodup from
    h [] List.nodup_nil
  induction bundles with
  | nil => exact fun s hs => hs
  | cons b bs ih =>
    intro s hs
    exact ih _ (nodup_foldl_pySetAdd b.shortNames s hs)

/-- The accumulator loop `res = f n and res` over a list computes the
conjunction of `f` over the list with the initial value. -/
theorem foldl_and_eq_all (f : String → Bool) (l : List String) (b : Bool) :
    l.foldl (fun r n => f n && r) b = (l.all f && b) := by
  induction l generalizing b with
  | nil => simp
  | cons a l ih =>
    simp only [List.foldl_cons, List.all_cons, ih]
    cases f a <;> cases b <;> simp

/-- Claim C7: `toggle_builtin_deny_rule_group_logonly` first patches
the group's `logOnly` attribute on the mapping and, if that fails,
returns `False` without updating any individual rule; if it succeeds,
it patches `logOnly` on every deny rule short name appearing in the
group's `denyRules` — each distinct short name exactly once — and
returns `True` if and only if every one of those rule updates also
succeeded. -/
theorem C7_toggle_group_logonly (env : ToggleEnv) :
    (env.groupPatchOk = false →
      toggle_builtin_deny_rule_group_logonly env =
        ([ToggleStep.patchGroup], false)) ∧
    (env.groupPatchOk = true →
      (toggle_builtin_deny_rule_group_logonly env).1 =
        [ToggleStep.patchGroup, ToggleStep.getGroup] ++
          (collectShortNames env.denyRules).map ToggleStep.patchRule ∧
      (collectShortNames env.denyRules).Nodup ∧
      (∀ y, y ∈ collectShortNames env.denyRules ↔
        ∃ b ∈ env.denyRules, y ∈ b.shortNames) ∧
      ((toggle_builtin_deny_rule_group_logonly env).2 = true ↔
        ∀ y ∈ collectShortNames env.denyRules, env.rulePatchOk y = true)) := by
  constructor
  · intro h
    simp [toggle_builtin_deny_rule_group_logonly, h]
  · intro h
    refine ⟨?_, nodup_collectShortNames env.denyRules,
      fun y => mem_collectShortNames env.denyRules y, ?_⟩
    · simp [toggle_builtin_deny_rule_group_logonly, h]
    · simp only [toggle_builtin_deny_rule_group_logonly, h,
        Bool.not_true, Bool.false_eq_true, if_false]
      rw [foldl_and_eq_all]
      simp [List.all_eq_true]

/-- Witness for C7: a group whose bundles mention the short names
`"sql_a"` twice and `"xss_b"` once is patched once per distinct name,
and with one failing rule update the toggle returns `False`. -/
theorem C7_witness :
    (toggle_builtin_deny_rule_group_logonly
      ⟨true, [⟨["sql_a", "xss_b"]⟩, ⟨["sql_a"]⟩],
        fun n => n == "sql_a"⟩).1 =
      [ToggleStep.patchGroup, ToggleStep.getGroup,
       ToggleStep.patchRule "sql_a", ToggleStep.patchRule "xss_b"] :=
  ((C7_toggle_group_logonly
    ⟨true, [⟨["sql_a", "xss_b"]⟩, ⟨["sql_a"]⟩],
      fun n => n == "sql_a"⟩).2 rfl).1

/- ## IP-list whitelist update
   `update_whitelist` in examples/ip_list_relationships.py,
   lines 112-174: the per-mapping transformation of
   `ipRules.ipAddressWhitelists.pathWhitelists`. -/

/-- The `pathPattern` object of a whitelist entry. -/
structure PathPatternObj where
  pattern : String
  caseIgnored : Bool
  inverted : Bool
deriving DecidableEq, Repr

/-- One entry of `ipAddressWhitelists.pathWhitelists` as the code
reads and writes it. -/
structure WhitelistEntry where
  enabled : Bool
  pathPattern : PathPatternObj
  ipAddressListIds : List Int
deriving DecidableEq, Repr

/-- The new entry appended at lines 153-162 when no entry with the
given path pattern exists. -/
def newWhitelistEntry (path_pattern : String) (ip_id : Int) : WhitelistEntry :=
  { enabled := true
    pathPattern := { pattern := path_pattern, caseIgnored := false, inverted := false }
    ipAddressListIds := [ip_id] }

/-- Embedding of the per-mapping body of `update_whitelist` (lines
135-165): find the first entry whose `pathPattern.pattern` equals the
given path pattern; if found, append `ip_id` to its
`ipAddressListIds` unless already present (in-place mutation of the
found entry); otherwise append a brand new entry holding only
`ip_id`. -/
def updatePathWhitelists (pw : List WhitelistEntry) (path_pattern : String)
    (ip_id : Int) : List WhitelistEntry :=
  match pw with
  | [] => [newWhitelistEntry path_pattern ip_id]
  | e :: rest =>
    if e.pathPattern.pattern = path_pattern then
      (if ip_id ∈ e.ipAddressListIds then e
       else { e with ipAddressListIds := e.ipAddressListIds ++ [ip_id] }) :: rest
    else
      e :: updatePathWhitelists rest path_pattern ip_id

/-- The first whitelist entry matching the given path pattern, as
found by the loop of lines 139-142. -/
def firstWhitelistMatch (pw : List WhitelistEntry) (path_pattern : String) :
    Option WhitelistEntry :=
  pw.find? (fun e => e.pathPattern.pattern == path_pattern)

/-- How many times `ip_id` occurs in the entry the code operates on:
the first entry matching the path pattern (0 when no entry matches). -/
def idCountAtPattern (pw : List WhitelistEntry) (path_pattern : String)
    (ip_id : Int) : Nat :=
  match firstWhitelistMatch pw path_pattern with
  | some e => e.ipAddressListIds.count ip_id
  | none => 0

/-- When the first matching entry already lists the IP, the update
leaves the whole whitelist unchanged. -/
theorem updatePathWhitelists_mem_unchanged (pw : List WhitelistEntry)
    (p : String) (i : Int) (e : WhitelistEntry)
    (hf : firstWhitelistMatch pw p = some e) (hi : i ∈ e.ipAddressListIds) :
    updatePathWhitelists pw p i = pw := by
  induction pw with
  | nil => simp [firstWhitelistMatch] at hf
  | cons a rest ih =>
    by_cases h : a.pathPattern.pattern = p
    · have ha : a = e := by
        simpa [firstWhitelistMatch, List.find?_cons_of_pos, h] using hf
      subst ha
      simp [updatePathWhitelists, h, hi]
    · have hf' : firstWhitelistMatch rest p = some e := by
        simpa [firstWhitelistMatch, List.find?_cons_of_neg,
          h] using hf
      simp [updatePathWhitelists, h, ih hf']

/-- When no entry matches the path pattern, the update appends exactly
one new entry, holding only the given IP list ID. -/
theorem updatePathWhitelists_append_new (pw : List WhitelistEntry)
    (p : String) (i : Int) (hf : firstWhitelistMatch pw p = none) :
    updatePathWhitelists pw p i = pw ++ [newWhitelistEntry p i] := by
  induction pw with
  | nil => simp [updatePathWhitelists]
  | cons a rest ih =>
    by_cases h : a.pathPattern.pattern = p
    · simp [firstWhitelistMatch, List.find?_cons_of_pos, h] at hf
    · have hf' : firstWhitelistMatch rest p = none := by
        simpa [firstWhitelistMatch, List.find?_cons_of_neg, h] using hf
      simp [updatePathWhitelists, h, ih hf']

/-- When the first matching entry does not yet list the IP, the update
replaces that entry by the same entry with the IP appended, and the
first matching entry of the result is exactly that extended entry. -/
theorem updatePathWhitelists_extends (pw : List WhitelistEntry)
    (p : String) (i : Int) (e : WhitelistEntry)
    (hf : firstWhitelistMatch pw p = some e) (hi : i ∉ e.ipAddressListIds) :
    firstWhitelistMatch (updatePathWhitelists pw p i) p =
      some { e with ipAddressListIds := e.ipAddressListIds ++ [i] } := by
  induction pw with
  | nil => simp [firstWhitelistMatch] at hf
  | cons a rest ih =>
    by_cases h : a.pathPattern.pattern = p
    · have ha : a = e := by
        simpa [firstWhitelistMatch, List.find?_cons_of_pos, h] using hf
      subst ha
      simp [updatePathWhitelists, h, hi, firstWhitelistMatch,
        List.find?_cons_of_pos]
    · have hf' : firstWhitelistMatch rest p = some e := by
        simpa [firstWhitelistMatch, List.find?_cons_of_neg, h] using hf
      have hupd : updatePathWhitelists (a :: rest) p i =
          a :: updatePathWhitelists rest p i := by
        simp [updatePathWhitelists, h]
      rw [hupd]
      simpa [firstWhitelistMatch, List.find?_cons_of_neg, h] using ih hf'

/-- After the update, the entry the code operates on lists the given
IP exactly once, provided it listed it at most once before. -/
theorem updatePathWhitelists_count_one (pw : List WhitelistEntry)
    (p : String) (i : Int) (hle : idCountAtPattern pw p i ≤ 1) :
    idCountAtPattern (updatePathWhitelists pw p i) p i = 1 := by
  cases hf : firstWhitelistMatch pw p with
  | none =>
    rw [updatePathWhitelists_append_new pw p i hf]
    have hmatch : firstWhitelistMatch (pw ++ [newWhitelistEntry p i]) p =
        some (newWhitelistEntry p i) := by
      unfold firstWhitelistMatch at hf ⊢
      rw [List.find?_append, hf]
      simp [newWhitelistEntry]
    unfold idCountAtPattern
    rw [hmatch]
    simp [newWhitelistEntry]
  | some e =>
    by_cases hi : i ∈ e.ipAddressListIds
    · rw [updatePathWhitelists_mem_unchanged pw p i e hf hi]
      have hpos : 0 < e.ipAddressListIds.count i := List.count_pos_iff.2 hi
      have heq : idCountAtPattern pw p i = e.ipAddressListIds.count i := by
        unfold idCountAtPattern
        rw [hf]
      rw [heq] at hle ⊢
      omega
    · have hext := updatePathWhitelists_extends pw p i e hf hi
      have hzero : e.ipAddressListIds.count i = 0 :=
        List.count_eq_zero.2 hi
      unfold idCountAtPattern
      rw [hext]
      simp [List.count_append, hzero]

/-- Applying the whitelist update twice with the same path pattern and
IP list ID gives the same result as applying it once. -/
theorem updatePathWhitelists_idem (pw : List WhitelistEntry)
    (p : String) (i : Int) :
    updatePathWhitelists (updatePathWhitelists pw p i) p i =
      updatePathWhitelists pw p i := by
  induction pw with
  | nil =>
    simp [updatePathWhitelists, newWhitelistEntry]
  | cons a rest ih =>
    by_cases h : a.pathPattern.pattern = p
    · by_cases hi : i ∈ a.ipAddressListIds
      · have h1 : updatePathWhitelists (a :: rest) p i = a :: rest := by
          simp [updatePathWhitelists, h, hi]
        rw [h1, h1]
      · have h1 : updatePathWhitelists (a :: rest) p i =
            { a with ipAddressListIds := a.ipAddressListIds ++ [i] } :: rest := by
          simp [updatePathWhitelists, h, hi]
        rw [h1]
        simp [updatePathWhitelists, h]
    · have h1 : updatePathWhitelists (a :: rest) p i =
          a :: updatePathWhitelists rest p i := by
        simp [updatePathWhitelists, h]
      rw [h1]
      simp [updatePathWhitelists, h, ih]

/-- Claim C8: for every whitelist processed by the IP-list whitelist
update, the resulting `pathWhitelists` contains the given IP list ID
at most once (exactly once) under the first entry whose
`pathPattern.pattern` equals the given path pattern, provided it
contained it at most once before: if such an entry exists the ID is
appended only when absent — the whitelist is returned unchanged when
the ID is already present — otherwise exactly one new entry containing
only that ID is appended; hence applying the update twice with the
same arguments yields the same whitelist as applying it once. -/
theorem C8_whitelist_update (pw : List WhitelistEntry) (p : String) (i : Int) :
    (idCountAtPattern pw p i ≤ 1 →
      idCountAtPattern (updatePathWhitelists pw p i) p i = 1) ∧
    (∀ e, firstWhitelistMatch pw p = some e → i ∈ e.ipAddressListIds →
      updatePathWhitelists pw p i = pw) ∧
    (∀ e, firstWhitelistMatch pw p = some e → i ∉ e.ipAddressListIds →
      firstWhitelistMatch (updatePathWhitelists pw p i) p =
        some { e with ipAddressListIds := e.ipAddressListIds ++ [i] }) ∧
    (firstWhitelistMatch pw p = none →
      updatePathWhitelists pw p i = pw ++ [newWhitelistEntry p i] ∧
      (newWhitelistEntry p i).ipAddressListIds = [i]) ∧
    (updatePathWhitelists (updatePathWhitelists pw p i) p i =
      updatePathWhitelists pw p i) :=
  ⟨updatePathWhitelists_count_one pw p i,
   fun e hf hi => updatePathWhitelists_mem_unchanged pw p i e hf hi,
   fun e hf hi => updatePathWhitelists_extends pw p i e hf hi,
   fun hf => ⟨updatePathWhitelists_append_new pw p i hf, rfl⟩,
   updatePathWhitelists_idem pw p i⟩

/-- Witness for C8: a whitelist with one entry for path `"/api"`
listing IP list 3 gains IP list 7 exactly once. -/
theorem C8_witness :
    idCountAtPattern
      (updatePathWhitelists [⟨true, ⟨"/api", false, false⟩, [3]⟩] "/api" 7)
      "/api" 7 = 1 :=
  (C8_whitelist_update [⟨true, ⟨"/api", false, false⟩, [3]⟩] "/api" 7).1
    (by decide)

/- ## `select_mappings`
   (airlock_gateway_rest_api_lib.py, lines 462-484). -/

/-- A mapping as returned by `GET /configuration/mappings`: a JSON
dictionary; the code reads its `id` and `attributes.name`.  Python
dicts are unhashable, which is what makes `set(...)` fail on a
non-empty list of mappings. -/
structure Mapping where
  id : String
  name : String
deriving DecidableEq, Repr

/-- A Python `TypeError`, carrying its message. -/
inductive PyError where
  | typeError (msg : String)
deriving DecidableEq, Repr

/-- Environment for `select_mappings`: the full mapping list returned
by `get_all_mappings`, the mapping lists returned by the
label-filtered GET, and an abstract oracle for Python
`re.search(pattern, name)`. -/
structure SelectEnv where
  allMappings : List Mapping
  labelResults : String → List Mapping
  regexSearch : String → String → Bool

/-- Python `set(l)` applied to a list of mappings: every element
models a dict, and dicts are unhashable, so the construction raises
`TypeError` unless the list is empty (building an empty set from an
empty list touches no element and succeeds). -/
def pySetOfMappings (l : List Mapping) : Except PyError Unit :=
  match l with
  | [] => Except.ok ()
  | _ :: _ => Except.error (PyError.typeError "unhashable type: dict")

/-- The merge expression `list(set(xs) + set(ys))` of lines 473-475:
Python first evaluates `set(xs)`, then `set(ys)`, then applies `+`,
which is not supported between two `set` objects and raises
`TypeError`. -/
def listSetPlusSet (xs ys : List Mapping) : Except PyError (List Mapping) :=
  match pySetOfMappings xs with
  | Except.error e => Except.error e
  | Except.ok _ =>
    match pySetOfMappings ys with
    | Except.error e => Except.error e
    | Except.ok _ =>
      Except.error (PyError.typeError "unsupported operand types for +: set and set")

/-- Python truthiness of an optional string argument, as tested by
`if (not pattern and not label):`: `None` is falsy and so is the
empty string. -/
def pyTruthyStr : Option String → Bool
  | none => false
  | some s => !(s = "")

/-- The pattern branch of lines 480-484: keep the mappings whose
`attributes.name` is matched by `re.search(pattern, name)`. -/
def selectByPattern (env : SelectEnv) (pattern : String) : List Mapping :=
  env.allMappings.filter (fun m => env.regexSearch pattern m.name)

/-- Embedding of `select_mappings(gw_session, pattern, label)` (lines
462-484): with both arguments falsy return all mappings; with both
truthy evaluate `list(set(select_mappings(pattern)) +
set(select_mappings(label)))` — the recursive calls reduce to the
single-criterion branches below — with a truthy label only, return
the label-filtered GET result; otherwise filter all mappings by the
regex. -/
def select_mappings (env : SelectEnv) (pattern label : Option String) :
    Except PyError (List Mapping) :=
  if !pyTruthyStr pattern && !pyTruthyStr label then
    Except.ok env.allMappings
  else if pyTruthyStr pattern && pyTruthyStr label then
    listSetPlusSet (selectByPattern env (pattern.getD ""))
      (env.labelResults (label.getD ""))
  else if pyTruthyStr label then
    Except.ok (env.labelResults (label.getD ""))
  else
    Except.ok (selectByPattern env (pattern.getD ""))

/-- The merge expression always raises a `TypeError`: either one of
the `set(...)` constructions hits an unhashable dict, or the final
`set + set` is an unsupported operand. -/
theorem listSetPlusSet_error (xs ys : List Mapping) :
    ∃ msg, listSetPlusSet xs ys = Except.error (PyError.typeError msg) := by
  cases xs with
  | nil =>
    cases ys with
    | nil => exact ⟨"unsupported operand types for +: set and set", rfl⟩
    | cons a l => exact ⟨"unhashable type: dict", rfl⟩
  | cons a l => exact ⟨"unhashable type: dict", rfl⟩

/-- A concrete environment with one mapping named `"alpha"` and a
label lookup returning one mapping named `"beta"`. -/
def selectEnvCex : SelectEnv :=
  { allMappings := [⟨"m1", "alpha"⟩]
    labelResults := fun _ => [⟨"m2", "beta"⟩]
    regexSearch := fun _ _ => true }

/-- Claim C9, counterexample: with the non-`None` pattern `""` and the
non-`None` label `"prod"`, `select_mappings` raises nothing: the empty
string is falsy in Python, so the `pattern and label` merge branch is
skipped and the label branch returns its result list. -/
theorem C9_counterexample :
    select_mappings selectEnvCex (some "") (some "prod") =
      Except.ok [⟨"m2", "beta"⟩] ∧
    (∀ e : PyError,
      select_mappings selectEnvCex (some "") (some "prod") ≠
        Except.error e) := by
  constructor
  · rfl
  · intro e h
    rw [show select_mappings selectEnvCex (some "") (some "prod") =
      Except.ok [⟨"m2", "beta"⟩] from rfl] at h
    exact Except.noConfusion h

/-- Claim C9 (amended): for every session and every non-empty (truthy)
pattern string together with a non-empty (truthy) label string,
`select_mappings` always raises a `TypeError` instead of returning the
union of pattern-matched and label-matched mappings: the merge
converts lists of unhashable dict objects to sets and applies the
unsupported `+` operator to sets.  (When either argument is the empty
string — non-`None` but falsy — Python truthiness routes the call to
the all-mappings or single-criterion branch and no exception is
raised.) -/
theorem C9_select_mappings_merge_raises (env : SelectEnv)
    (pattern label : String) (hp : pattern ≠ "") (hl : label ≠ "") :
    ∃ msg, select_mappings env (some pattern) (some label) =
      Except.error (PyError.typeError msg) := by
  have hp' : pyTruthyStr (some pattern) = true := by
    simp [pyTruthyStr, hp]
  have hl' : pyTruthyStr (some label) = true := by
    simp [pyTruthyStr, hl]
  unfold select_mappings
  rw [hp', hl']
  simpa using listSetPlusSet_error (selectByPattern env pattern)
    (env.labelResults label)

/-- Witness for C9: with the truthy pattern `"^cust"` and truthy label
`"prod"` the call raises a `TypeError`. -/
theorem C9_witness :
    ("^cust" ≠ "" ∧ "prod" ≠ "") ∧
    ∃ msg, select_mappings selectEnvCex (some "^cust") (some "prod") =
      Except.error (PyError.typeError msg) :=
  ⟨⟨by decide, by decide⟩,
   C9_select_mappings_merge_raises selectEnvCex "^cust" "prod"
     (by decide) (by decide)⟩
